import Mathlib

/-!
Shallow embedding of the training/evaluation orchestration of the
DepthEstimation repository (src/model/train.py and src/model/evaluate.py).

Tensors are modelled as functions from an abstract pixel-index type to ℚ.
The depth network, the custom geometry layers (depth scaling, flow-from-depth,
depth warping) and the two loss functions are external modules imported by
train.py; the training loop calls them opaquely, so they appear here as
parameters bundled in a `TensorOps` record.  The per-batch control flow of the
training loop (scheduler stepping, the non-finite-loss branch, gradient
clipping, the optimizer step, the step counter) is modelled as a state
transition producing a trace of optimizer actions.
-/

namespace DepthEstimation

/-- Outcome of a Python float computation: a finite rational value, NaN, or a
signed infinity.  `math.isnan` / `math.isinf` in train.py line 266 branch on
exactly these. -/
inductive FloatV : Type
  | fin (q : ℚ)
  | nan
  | inf
  | ninf
deriving DecidableEq, Repr

/-- `math.isnan(x)`. -/
def FloatV.isnan : FloatV → Bool
  | .nan => true
  | _ => false

/-- `math.isinf(x)`. -/
def FloatV.isinf : FloatV → Bool
  | .inf => true
  | .ninf => true
  | _ => false

/-- The condition of train.py line 266:
`math.isnan(loss.item()) or math.isinf(loss.item())`. -/
def nonFiniteLoss (l : FloatV) : Bool := l.isnan || l.isinf

/-- Observable optimizer/scheduler operations performed by the training-loop
body (train.py lines 203 and 266-278). -/
inductive OptAction : Type
  | schedBatchStep (batchIteration : ℕ)
  | zeroGrad
  | backward
  | clipGradNorm (maxNorm : ℚ)
  | optStep
deriving DecidableEq, Repr

/-- The running counters of the training loop: `step` (train.py lines 179/289,
passed to the scheduler and persisted in checkpoints) and `flag`
(lines 181/273). -/
structure TrainState where
  step : ℕ
  flag : ℕ
deriving DecidableEq, Repr

/-- How an iteration of the batch loop ends: with `continue` (line 271), by
falling through to the end of the loop body, or by raising an exception that
aborts the process.  The loop body of train.py contains no `raise`, so
`aborted` is never produced by `trainBatchBody`. -/
inductive BatchOutcome : Type
  | continued
  | completed
  | aborted
deriving DecidableEq, Repr

/-- Result of one iteration of the training batch loop. -/
structure BatchResult where
  state : TrainState
  trace : List OptAction
  outcome : BatchOutcome
deriving DecidableEq, Repr

/-- One iteration of the training batch loop (train.py lines 203-300),
abstracted over the loss value the forward pass produced:
`lr_scheduler.batch_step(batch_iteration=step)` (line 203); then if the total
loss is NaN or Inf (line 266): `optimizer.zero_grad(); loss.backward();
optimizer.zero_grad(); optimizer.step(); continue` (lines 267-271) — `continue`
skips the `step += 1` at line 289; otherwise (lines 272-278): `flag += 1;
optimizer.zero_grad(); loss.backward();
torch.nn.utils.clip_grad_norm_(..., 10.0); optimizer.step()` and then
`step += 1` (line 289). -/
def trainBatchBody (s : TrainState) (loss : FloatV) : BatchResult :=
  if nonFiniteLoss loss then
    { state := s
      trace := [.schedBatchStep s.step, .zeroGrad, .backward, .zeroGrad, .optStep]
      outcome := .continued }
  else
    { state := { step := s.step + 1, flag := s.flag + 1 }
      trace := [.schedBatchStep s.step, .zeroGrad, .backward, .clipGradNorm 10, .optStep]
      outcome := .completed }

/-- β₁ of `torch.optim.Adam` (library default 0.9, used by train.py line 154). -/
def adamBeta1 : ℚ := 9 / 10

/-- β₂ of `torch.optim.Adam` (library default 0.999). -/
def adamBeta2 : ℚ := 999 / 1000

/-- First- and second-moment update of one `torch.optim.Adam` step for a
scalar parameter with gradient `g`:
`m' = β₁ m + (1-β₁) g`, `v' = β₂ v + (1-β₂) g²`.  With `g = 0` (gradients
zeroed just before the step) the moments still decay, so the step is not a
no-op on optimizer state when a moment is nonzero. -/
def adamMoments (m v g : ℚ) : ℚ × ℚ :=
  (adamBeta1 * m + (1 - adamBeta1) * g, adamBeta2 * v + (1 - adamBeta2) * g * g)

/-- Default of `--dcl_weight` (train.py lines 34-35). -/
def dclWeightDefault : ℚ := 5

/-- Default of `--sfl_weight` (train.py line 36). -/
def sflWeightDefault : ℚ := 20

/-- Warm-up schedule of the depth-consistency weight (train.py lines 192-195):
`if epoch <= 20: depth_consistency_weight = 0.1
else: depth_consistency_weight = args.dcl_weight`. -/
def depthConsistencyWeight (epoch : ℕ) (dclWeight : ℚ) : ℚ :=
  if epoch ≤ 20 then 0.1 else dclWeight

/-- Modelled from the spec: `scheduler.CyclicLR` is imported by train.py
(lines 16, 155, 203) but its source is not under src/.  Spec §4.6: a
triangular waveform between `base_lr` and `max_lr`, increasing linearly from
min to max over the first half-cycle of `stepSize` iterations, decreasing
linearly back over the second half-cycle, repeating indefinitely, as a pure
function of the cumulative iteration count. -/
def cyclicLR (baseLr maxLr : ℚ) (stepSize : ℕ) (it : ℕ) : ℚ :=
  let r := it % (2 * stepSize)
  if r ≤ stepSize then
    baseLr + (maxLr - baseLr) * (r : ℚ) / (stepSize : ℚ)
  else
    baseLr + (maxLr - baseLr) * ((2 * stepSize - r : ℕ) : ℚ) / (stepSize : ℚ)

/-- The checkpoint dictionary: train.py lines 169-172 read the keys `step`,
`epoch` and `model` from a loaded checkpoint, and the `utils.save_model` call
at lines 463-465 passes the model, optimizer, epoch, step and validation
loss. -/
structure Checkpoint (M O : Type) where
  model : M
  optimizer : O
  epoch : ℕ
  step : ℕ
  validationLoss : ℚ
deriving DecidableEq, Repr

/-- Modelled from the spec: `utils.save_model` is imported by train.py
(line 14) but its source is not under src/.  Spec §6: checkpoint files retain
the optimizer step count and epoch number (together with the model and
optimizer passed at the call site). -/
def saveModel (M O : Type) (model : M) (optimizer : O) (epoch step : ℕ)
    (validationLoss : ℚ) : Checkpoint M O :=
  { model := model, optimizer := optimizer, epoch := epoch, step := step
    validationLoss := validationLoss }

/-- The end-of-epoch checkpoint call (train.py lines 463-465):
`utils.save_model(model=..., optimizer=..., epoch=epoch + 1, step=step, ...)`. -/
def endOfEpochSave (M O : Type) (model : M) (optimizer : O) (epoch step : ℕ)
    (validationLoss : ℚ) : Checkpoint M O :=
  saveModel M O model optimizer (epoch + 1) step validationLoss

/-- The only fatal error the orchestration raises: `raise OSError`
(train.py line 176, evaluate.py line 122). -/
inductive TrainError : Type
  | osError
deriving DecidableEq, Repr

/-- The state restored before the epoch loop starts. -/
structure RestoredState (M : Type) where
  step : ℕ
  epoch : ℕ
  modelState : M
deriving DecidableEq, Repr

/-- The checkpoint-restore branch of train.py lines 166-179: with
`--load_trained_model` set, a checkpoint at `trained_model_path` is loaded and
`step`, `epoch` and the model weights are restored from it; if the file does
not exist, `raise OSError`.  Without the flag, `epoch = 0` and `step = 0`.
The filesystem is modelled by `stored`: the checkpoint the path holds, if the
file exists. -/
def loadTrainedModelBranch (M O : Type) (loadTrainedModel : Bool)
    (stored : Option (Checkpoint M O)) (initModel : M) :
    Except TrainError (RestoredState M) :=
  if loadTrainedModel then
    match stored with
    | some state => .ok { step := state.step, epoch := state.epoch, modelState := state.model }
    | none => .error .osError
  else
    .ok { step := 0, epoch := 0, modelState := initModel }

/-- The checkpoint load of evaluate.py lines 113-122: a trained model is
always required; `raise OSError` if `trained_model_path` does not exist. -/
def evaluateLoadModel (M O : Type) (stored : Option (Checkpoint M O)) :
    Except TrainError (RestoredState M) :=
  match stored with
  | some state => .ok { step := state.step, epoch := state.epoch, modelState := state.model }
  | none => .error .osError

/-- The epoch loop header `for epoch in range(epoch, n_epochs + 1)`
(train.py line 183): the epochs processed, starting at the restored epoch. -/
def epochSchedule (epoch nEpochs : ℕ) : List ℕ :=
  List.range' epoch (nEpochs + 1 - epoch)

/-- The external modules the forward pass of train.py calls opaquely:
`depth_estimation_model` (line 149), `layers.DepthScalingLayer` (line 158),
`layers.DepthWarpingLayer` (line 159), `layers.FlowfromDepthLayer` (line 160),
`losses.SparseMaskedL1Loss` (line 162), `losses.NormalizedDistanceLoss`
(line 163).  `ι` indexes tensor entries, `T`, `R`, `K` are the translation,
rotation and intrinsics payload types. -/
structure TensorOps (ι T R K : Type) where
  model : (ι → ℚ) → ι → ℚ
  depthScaling : (ι → ℚ) → (ι → ℚ) → (ι → ℚ) → (ι → ℚ) × ℚ
  flowFromDepth : (ι → ℚ) → (ι → ℚ) → T → R → K → ι → ℚ
  depthWarping : (ι → ℚ) → (ι → ℚ) → (ι → ℚ) → T → R → K → (ι → ℚ) × (ι → ℚ)
  sparseFlowLoss : (ι → ℚ) → (ι → ℚ) → (ι → ℚ) → ℚ
  depthConsistencyLoss : (ι → ℚ) → (ι → ℚ) → (ι → ℚ) → K → ℚ

/-- One batch of loader-provided tensors, as unpacked by the training loop
header (train.py lines 197-201). -/
structure BatchInputs (ι T R K : Type) where
  colors1 : ι → ℚ
  colors2 : ι → ℚ
  sparseDepths1 : ι → ℚ
  sparseDepths2 : ι → ℚ
  sparseDepthMasks1 : ι → ℚ
  sparseDepthMasks2 : ι → ℚ
  sparseFlows1 : ι → ℚ
  sparseFlows2 : ι → ℚ
  sparseFlowMasks1 : ι → ℚ
  sparseFlowMasks2 : ι → ℚ
  boundaries : ι → ℚ
  rotations1wrt2 : R
  rotations2wrt1 : R
  translations1wrt2 : T
  translations2wrt1 : T
  intrinsics : K

/-- The intermediate tensors and scalar losses of one forward pass
(train.py lines 224-264 / 379-419).  `scalingInput` records the tensor passed
as first argument to the depth scaling layer; the masked fields record the
tensors passed to the sparse flow loss. -/
structure ForwardResult (ι : Type) where
  networkInput1 : ι → ℚ
  networkInput2 : ι → ℚ
  predicted1 : ι → ℚ
  predicted2 : ι → ℚ
  scalingInput1 : ι → ℚ
  scalingInput2 : ι → ℚ
  scaled1 : ι → ℚ
  scaled2 : ι → ℚ
  maskedSparseFlowMasks1 : ι → ℚ
  maskedSparseFlowMasks2 : ι → ℚ
  maskedSparseFlows1 : ι → ℚ
  maskedSparseFlows2 : ι → ℚ
  maskedFlowsFromDepth1 : ι → ℚ
  maskedFlowsFromDepth2 : ι → ℚ
  warpedDepth2to1 : ι → ℚ
  warpedDepth1to2 : ι → ℚ
  intersectMasks1 : ι → ℚ
  intersectMasks2 : ι → ℚ
  sparseFlowLossVal : ℚ
  depthConsistencyLossVal : ℚ
  loss : ℚ

/-- The training forward pass (train.py lines 224-264):
colors are masked by the boundaries (lines 224-225), the network predicts raw
depths (lines 227-228), the scaling layer receives the raw predictions
directly (lines 230-233), flows are synthesized from the scaled depths
(lines 236-241), the sparse flow masks, sparse flows and synthesized flows
are each multiplied by the boundaries (lines 242-247), the sparse flow loss
is `sparse_flow_weight * 0.5 * (loss(dir 1→2) + loss(dir 2→1))`
(lines 249-251), depths are warped across views (lines 254-259), the depth
consistency loss is `depth_consistency_weight * 0.5 * (loss(view 1) +
loss(view 2))` (lines 260-263), and the total loss is their sum (line 264). -/
def trainForward (ι T R K : Type) (ops : TensorOps ι T R K)
    (inp : BatchInputs ι T R K) (sparseFlowWeight depthConsistencyWt : ℚ) :
    ForwardResult ι :=
  let colors1 := fun p => inp.boundaries p * inp.colors1 p
  let colors2 := fun p => inp.boundaries p * inp.colors2 p
  let predicted1 := ops.model colors1
  let predicted2 := ops.model colors2
  let scaled1 := (ops.depthScaling predicted1 inp.sparseDepths1 inp.sparseDepthMasks1).1
  let scaled2 := (ops.depthScaling predicted2 inp.sparseDepths2 inp.sparseDepthMasks2).1
  let flowsFromDepth1 :=
    ops.flowFromDepth scaled1 inp.boundaries inp.translations1wrt2 inp.rotations1wrt2
      inp.intrinsics
  let flowsFromDepth2 :=
    ops.flowFromDepth scaled2 inp.boundaries inp.translations2wrt1 inp.rotations2wrt1
      inp.intrinsics
  let sparseFlowMasks1 := fun p => inp.sparseFlowMasks1 p * inp.boundaries p
  let sparseFlowMasks2 := fun p => inp.sparseFlowMasks2 p * inp.boundaries p
  let sparseFlows1 := fun p => inp.sparseFlows1 p * inp.boundaries p
  let sparseFlows2 := fun p => inp.sparseFlows2 p * inp.boundaries p
  let flowsFromDepthM1 := fun p => flowsFromDepth1 p * inp.boundaries p
  let flowsFromDepthM2 := fun p => flowsFromDepth2 p * inp.boundaries p
  let sparseFlowLossVal := sparseFlowWeight * 0.5 *
    (ops.sparseFlowLoss sparseFlows1 flowsFromDepthM1 sparseFlowMasks1 +
      ops.sparseFlowLoss sparseFlows2 flowsFromDepthM2 sparseFlowMasks2)
  let warped2to1 :=
    ops.depthWarping scaled1 scaled2 inp.boundaries inp.translations1wrt2 inp.rotations1wrt2
      inp.intrinsics
  let warped1to2 :=
    ops.depthWarping scaled2 scaled1 inp.boundaries inp.translations2wrt1 inp.rotations2wrt1
      inp.intrinsics
  let depthConsistencyLossVal := depthConsistencyWt * 0.5 *
    (ops.depthConsistencyLoss scaled1 warped2to1.1 warped2to1.2 inp.intrinsics +
      ops.depthConsistencyLoss scaled2 warped1to2.1 warped1to2.2 inp.intrinsics)
  { networkInput1 := colors1
    networkInput2 := colors2
    predicted1 := predicted1
    predicted2 := predicted2
    scalingInput1 := predicted1
    scalingInput2 := predicted2
    scaled1 := scaled1
    scaled2 := scaled2
    maskedSparseFlowMasks1 := sparseFlowMasks1
    maskedSparseFlowMasks2 := sparseFlowMasks2
    maskedSparseFlows1 := sparseFlows1
    maskedSparseFlows2 := sparseFlows2
    maskedFlowsFromDepth1 := flowsFromDepthM1
    maskedFlowsFromDepth2 := flowsFromDepthM2
    warpedDepth2to1 := warped2to1.1
    warpedDepth1to2 := warped1to2.1
    intersectMasks1 := warped2to1.2
    intersectMasks2 := warped1to2.2
    sparseFlowLossVal := sparseFlowLossVal
    depthConsistencyLossVal := depthConsistencyLossVal
    loss := depthConsistencyLossVal + sparseFlowLossVal }

/-- The validation forward pass (train.py lines 379-419).  Identical to the
training forward pass except that the depth scaling layer receives
`torch.abs(predicted_depth_maps)` (lines 385-388) instead of the raw network
output. -/
def valForward (ι T R K : Type) (ops : TensorOps ι T R K)
    (inp : BatchInputs ι T R K) (sparseFlowWeight depthConsistencyWt : ℚ) :
    ForwardResult ι :=
  let colors1 := fun p => inp.boundaries p * inp.colors1 p
  let colors2 := fun p => inp.boundaries p * inp.colors2 p
  let predicted1 := ops.model colors1
  let predicted2 := ops.model colors2
  let absPredicted1 := fun p => |predicted1 p|
  let absPredicted2 := fun p => |predicted2 p|
  let scaled1 := (ops.depthScaling absPredicted1 inp.sparseDepths1 inp.sparseDepthMasks1).1
  let scaled2 := (ops.depthScaling absPredicted2 inp.sparseDepths2 inp.sparseDepthMasks2).1
  let flowsFromDepth1 :=
    ops.flowFromDepth scaled1 inp.boundaries inp.translations1wrt2 inp.rotations1wrt2
      inp.intrinsics
  let flowsFromDepth2 :=
    ops.flowFromDepth scaled2 inp.boundaries inp.translations2wrt1 inp.rotations2wrt1
      inp.intrinsics
  let sparseFlowMasks1 := fun p => inp.sparseFlowMasks1 p * inp.boundaries p
  let sparseFlowMasks2 := fun p => inp.sparseFlowMasks2 p * inp.boundaries p
  let sparseFlows1 := fun p => inp.sparseFlows1 p * inp.boundaries p
  let sparseFlows2 := fun p => inp.sparseFlows2 p * inp.boundaries p
  let flowsFromDepthM1 := fun p => flowsFromDepth1 p * inp.boundaries p
  let flowsFromDepthM2 := fun p => flowsFromDepth2 p * inp.boundaries p
  let sparseFlowLossVal := sparseFlowWeight * 0.5 *
    (ops.sparseFlowLoss sparseFlows1 flowsFromDepthM1 sparseFlowMasks1 +
      ops.sparseFlowLoss sparseFlows2 flowsFromDepthM2 sparseFlowMasks2)
  let warped2to1 :=
    ops.depthWarping scaled1 scaled2 inp.boundaries inp.translations1wrt2 inp.rotations1wrt2
      inp.intrinsics
  let warped1to2 :=
    ops.depthWarping scaled2 scaled1 inp.boundaries inp.translations2wrt1 inp.rotations2wrt1
      inp.intrinsics
  let depthConsistencyLossVal := depthConsistencyWt * 0.5 *
    (ops.depthConsistencyLoss scaled1 warped2to1.1 warped2to1.2 inp.intrinsics +
      ops.depthConsistencyLoss scaled2 warped1to2.1 warped1to2.2 inp.intrinsics)
  { networkInput1 := colors1
    networkInput2 := colors2
    predicted1 := predicted1
    predicted2 := predicted2
    scalingInput1 := absPredicted1
    scalingInput2 := absPredicted2
    scaled1 := scaled1
    scaled2 := scaled2
    maskedSparseFlowMasks1 := sparseFlowMasks1
    maskedSparseFlowMasks2 := sparseFlowMasks2
    maskedSparseFlows1 := sparseFlows1
    maskedSparseFlows2 := sparseFlows2
    maskedFlowsFromDepth1 := flowsFromDepthM1
    maskedFlowsFromDepth2 := flowsFromDepthM2
    warpedDepth2to1 := warped2to1.1
    warpedDepth1to2 := warped1to2.1
    intersectMasks1 := warped2to1.2
    intersectMasks2 := warped1to2.2
    sparseFlowLossVal := sparseFlowLossVal
    depthConsistencyLossVal := depthConsistencyLossVal
    loss := depthConsistencyLossVal + sparseFlowLossVal }

/-- A concrete operation bundle over a one-pixel image, used to evaluate the
pipeline theorems on explicit inputs. -/
def unitOps : TensorOps Unit Unit Unit Unit :=
  { model := fun c p => c p + 1
    depthScaling := fun d _ _ => (fun p => 2 * d p, 0)
    flowFromDepth := fun d _ _ _ _ p => d p + 3
    depthWarping := fun _ d2 _ _ _ _ => (d2, fun _ => 1)
    sparseFlowLoss := fun a b c => a () + b () + c ()
    depthConsistencyLoss := fun a b c _ => a () + b () + c () }

/-- A concrete one-pixel batch whose boundary mask is zero. -/
def unitInputs : BatchInputs Unit Unit Unit Unit :=
  { colors1 := fun _ => 4
    colors2 := fun _ => 5
    sparseDepths1 := fun _ => 6
    sparseDepths2 := fun _ => 7
    sparseDepthMasks1 := fun _ => 1
    sparseDepthMasks2 := fun _ => 1
    sparseFlows1 := fun _ => 8
    sparseFlows2 := fun _ => 9
    sparseFlowMasks1 := fun _ => 1
    sparseFlowMasks2 := fun _ => 1
    boundaries := fun _ => 0
    rotations1wrt2 := ()
    rotations2wrt1 := ()
    translations1wrt2 := ()
    translations2wrt1 := ()
    intrinsics := () }

/-- C1 counterexample: with the step counter at 0 and a NaN total loss, the
batch body of train.py leaves the step counter at 0 — the `continue` at
line 271 skips the `step += 1` at line 289 — whereas the claim says the
counter is incremented for that batch as it is for finite-loss batches. -/
theorem nonfinite_step_not_incremented_cex :
    (trainBatchBody { step := 0, flag := 0 } .nan).state.step ≠ 0 + 1 := by
  decide

/-- C1 (amended): for every training batch whose total loss is NaN or Inf,
the loop zeroes gradients (though `optimizer.step()` is still invoked with
zeroed gradients) and ends the iteration with `continue`; the step counter is
NOT incremented for that batch — the state is unchanged — while for every
finite-loss batch the counter is incremented. -/
theorem nonfinite_loss_recovery (s : TrainState) (l : FloatV) :
    (nonFiniteLoss l = true →
      (trainBatchBody s l).state = s ∧
      (trainBatchBody s l).trace =
        [.schedBatchStep s.step, .zeroGrad, .backward, .zeroGrad, .optStep] ∧
      (trainBatchBody s l).outcome = .continued) ∧
    (nonFiniteLoss l = false →
      (trainBatchBody s l).state.step = s.step + 1) := by
  constructor
  · intro h
    simp [trainBatchBody, h]
  · intro h
    simp [trainBatchBody, h]

/-- C1 witness: the amended claim evaluated at concrete states, a NaN loss and
a finite loss. -/
theorem nonfinite_loss_recovery_witness :
    (trainBatchBody { step := 0, flag := 0 } .nan).state = { step := 0, flag := 0 } ∧
    (trainBatchBody { step := 5, flag := 2 } (.fin 3)).state.step = 5 + 1 :=
  ⟨((nonfinite_loss_recovery { step := 0, flag := 0 } .nan).1 (by decide)).1,
    (nonfinite_loss_recovery { step := 5, flag := 2 } (.fin 3)).2 (by decide)⟩

/-- C2: the depth-consistency loss weight equals 0.1 for every epoch ≤ 20 and
equals the configured dcl_weight for every epoch > 20; the default dcl_weight
is 5.0. -/
theorem depth_consistency_warmup (epoch : ℕ) (dclWeight : ℚ) :
    (epoch ≤ 20 → depthConsistencyWeight epoch dclWeight = 0.1) ∧
    (20 < epoch → depthConsistencyWeight epoch dclWeight = dclWeight) ∧
    dclWeightDefault = 5 := by
  refine ⟨fun h => ?_, fun h => ?_, rfl⟩
  · simp only [depthConsistencyWeight]
    rw [if_pos h]
  · simp only [depthConsistencyWeight]
    rw [if_neg (by omega)]

/-- C2 witness: the warm-up weight at epoch 20 and epoch 21 with the default
dcl_weight. -/
theorem depth_consistency_warmup_witness :
    depthConsistencyWeight 20 dclWeightDefault = 0.1 ∧
    depthConsistencyWeight 21 dclWeightDefault = dclWeightDefault :=
  ⟨(depth_consistency_warmup 20 dclWeightDefault).1 (by decide),
    (depth_consistency_warmup 21 dclWeightDefault).2.1 (by decide)⟩

/-- C3: the cyclic learning-rate schedule is a pure function of the cumulative
iteration count, and with min_lr = 1e-4, max_lr = 1e-3 and half-cycle 1000 the
rate at iteration 0 is exactly 1e-4, at iteration 1000 exactly 1e-3, at
iteration 2000 exactly 1e-4; the triangular waveform repeats with period one
full cycle of 2·stepSize iterations. -/
theorem cyclic_lr_triangular :
    cyclicLR (1 / 10000) (1 / 1000) 1000 0 = 1 / 10000 ∧
    cyclicLR (1 / 10000) (1 / 1000) 1000 1000 = 1 / 1000 ∧
    cyclicLR (1 / 10000) (1 / 1000) 1000 2000 = 1 / 10000 ∧
    (∀ baseLr maxLr : ℚ, ∀ stepSize it : ℕ,
      cyclicLR baseLr maxLr stepSize (it + 2 * stepSize) =
        cyclicLR baseLr maxLr stepSize it) := by
  refine ⟨by norm_num [cyclicLR], by norm_num [cyclicLR], by norm_num [cyclicLR],
    fun baseLr maxLr stepSize it => ?_⟩
  simp only [cyclicLR, Nat.add_mod_right]

/-- C4: each of the two scalar losses is computed symmetrically over both
directions of the frame pair and weighted by its configurable scalar:
`sparse_flow_loss = sfl_weight * 0.5 * (loss(dir 1→2) + loss(dir 2→1))` and
`depth_consistency_loss = weight * 0.5 * (loss(view 1) + loss(view 2))`, and
the total loss is their sum. -/
theorem symmetric_weighted_losses (ι T R K : Type) (ops : TensorOps ι T R K)
    (inp : BatchInputs ι T R K) (sflW dclW : ℚ) :
    (trainForward ι T R K ops inp sflW dclW).sparseFlowLossVal =
      sflW * 0.5 *
        (ops.sparseFlowLoss (trainForward ι T R K ops inp sflW dclW).maskedSparseFlows1
            (trainForward ι T R K ops inp sflW dclW).maskedFlowsFromDepth1
            (trainForward ι T R K ops inp sflW dclW).maskedSparseFlowMasks1 +
          ops.sparseFlowLoss (trainForward ι T R K ops inp sflW dclW).maskedSparseFlows2
            (trainForward ι T R K ops inp sflW dclW).maskedFlowsFromDepth2
            (trainForward ι T R K ops inp sflW dclW).maskedSparseFlowMasks2) ∧
    (trainForward ι T R K ops inp sflW dclW).depthConsistencyLossVal =
      dclW * 0.5 *
        (ops.depthConsistencyLoss (trainForward ι T R K ops inp sflW dclW).scaled1
            (trainForward ι T R K ops inp sflW dclW).warpedDepth2to1
            (trainForward ι T R K ops inp sflW dclW).intersectMasks1 inp.intrinsics +
          ops.depthConsistencyLoss (trainForward ι T R K ops inp sflW dclW).scaled2
            (trainForward ι T R K ops inp sflW dclW).warpedDepth1to2
            (trainForward ι T R K ops inp sflW dclW).intersectMasks2 inp.intrinsics) ∧
    (trainForward ι T R K ops inp sflW dclW).loss =
      (trainForward ι T R K ops inp sflW dclW).depthConsistencyLossVal +
        (trainForward ι T R K ops inp sflW dclW).sparseFlowLossVal :=
  ⟨rfl, rfl, rfl⟩

/-- C5: before loss computation, every per-pixel quantity entering the sparse
flow loss is multiplied by the boundary mask: the sparse flow masks, the
sparse ground-truth flows and the dense flows synthesized from depth are each
elementwise multiplied by the boundary mask prior to being passed to the loss
(and the input colors are boundary-masked before entering the network); the
sparse flow loss is therefore evaluated on boundary-masked tensors only, and
the masked quantities vanish wherever the boundary mask is zero. -/
theorem boundary_masking_before_loss (ι T R K : Type) (ops : TensorOps ι T R K)
    (inp : BatchInputs ι T R K) (sflW dclW : ℚ) :
    (trainForward ι T R K ops inp sflW dclW).maskedSparseFlowMasks1 =
      (fun p => inp.sparseFlowMasks1 p * inp.boundaries p) ∧
    (trainForward ι T R K ops inp sflW dclW).maskedSparseFlowMasks2 =
      (fun p => inp.sparseFlowMasks2 p * inp.boundaries p) ∧
    (trainForward ι T R K ops inp sflW dclW).maskedSparseFlows1 =
      (fun p => inp.sparseFlows1 p * inp.boundaries p) ∧
    (trainForward ι T R K ops inp sflW dclW).maskedSparseFlows2 =
      (fun p => inp.sparseFlows2 p * inp.boundaries p) ∧
    (trainForward ι T R K ops inp sflW dclW).maskedFlowsFromDepth1 =
      (fun p =>
        ops.flowFromDepth (trainForward ι T R K ops inp sflW dclW).scaled1 inp.boundaries
            inp.translations1wrt2 inp.rotations1wrt2 inp.intrinsics p * inp.boundaries p) ∧
    (trainForward ι T R K ops inp sflW dclW).maskedFlowsFromDepth2 =
      (fun p =>
        ops.flowFromDepth (trainForward ι T R K ops inp sflW dclW).scaled2 inp.boundaries
            inp.translations2wrt1 inp.rotations2wrt1 inp.intrinsics p * inp.boundaries p) ∧
    (trainForward ι T R K ops inp sflW dclW).networkInput1 =
      (fun p => inp.boundaries p * inp.colors1 p) ∧
    (trainForward ι T R K ops inp sflW dclW).networkInput2 =
      (fun p => inp.boundaries p * inp.colors2 p) ∧
    (trainForward ι T R K ops inp sflW dclW).sparseFlowLossVal =
      sflW * 0.5 *
        (ops.sparseFlowLoss (fun p => inp.sparseFlows1 p * inp.boundaries p)
            (fun p =>
              ops.flowFromDepth (trainForward ι T R K ops inp sflW dclW).scaled1 inp.boundaries
                  inp.translations1wrt2 inp.rotations1wrt2 inp.intrinsics p * inp.boundaries p)
            (fun p => inp.sparseFlowMasks1 p * inp.boundaries p) +
          ops.sparseFlowLoss (fun p => inp.sparseFlows2 p * inp.boundaries p)
            (fun p =>
              ops.flowFromDepth (trainForward ι T R K ops inp sflW dclW).scaled2 inp.boundaries
                  inp.translations2wrt1 inp.rotations2wrt1 inp.intrinsics p * inp.boundaries p)
            (fun p => inp.sparseFlowMasks2 p * inp.boundaries p)) ∧
    (∀ p, inp.boundaries p = 0 →
      (trainForward ι T R K ops inp sflW dclW).maskedSparseFlows1 p = 0 ∧
      (trainForward ι T R K ops inp sflW dclW).maskedFlowsFromDepth1 p = 0 ∧
      (trainForward ι T R K ops inp sflW dclW).maskedSparseFlowMasks1 p = 0 ∧
      (trainForward ι T R K ops inp sflW dclW).maskedSparseFlows2 p = 0 ∧
      (trainForward ι T R K ops inp sflW dclW).maskedFlowsFromDepth2 p = 0 ∧
      (trainForward ι T R K ops inp sflW dclW).maskedSparseFlowMasks2 p = 0) := by
  refine ⟨rfl, rfl, rfl, rfl, rfl, rfl, rfl, rfl, rfl, fun p h => ?_⟩
  refine ⟨?_, ?_, ?_, ?_, ?_, ?_⟩ <;>
    · show _ * inp.boundaries p = 0
      rw [h, mul_zero]

/-- C5 witness: on a concrete one-pixel batch whose boundary mask is zero, the
quantities passed to the sparse flow loss all vanish. -/
theorem boundary_masking_before_loss_witness :
    (trainForward Unit Unit Unit Unit unitOps unitInputs 20 5).maskedSparseFlows1 () = 0 ∧
    (trainForward Unit Unit Unit Unit unitOps unitInputs 20 5).maskedFlowsFromDepth1 () = 0 ∧
    (trainForward Unit Unit Unit Unit unitOps unitInputs 20 5).maskedSparseFlowMasks1 () = 0 ∧
    (trainForward Unit Unit Unit Unit unitOps unitInputs 20 5).maskedSparseFlows2 () = 0 ∧
    (trainForward Unit Unit Unit Unit unitOps unitInputs 20 5).maskedFlowsFromDepth2 () = 0 ∧
    (trainForward Unit Unit Unit Unit unitOps unitInputs 20 5).maskedSparseFlowMasks2 () = 0 :=
  (boundary_masking_before_loss Unit Unit Unit Unit unitOps unitInputs 20 5).2.2.2.2.2.2.2.2.2
    () rfl

/-- C6: at validation time the depth scaling layer receives the elementwise
absolute value of the raw network output, whereas the training pass feeds the
raw prediction directly; both passes run the network on the same
boundary-masked colors, so their raw predictions agree. -/
theorem eval_abs_before_scaling (ι T R K : Type) (ops : TensorOps ι T R K)
    (inp : BatchInputs ι T R K) (sflW dclW : ℚ) :
    (valForward ι T R K ops inp sflW dclW).scalingInput1 =
      (fun p => |(valForward ι T R K ops inp sflW dclW).predicted1 p|) ∧
    (valForward ι T R K ops inp sflW dclW).scalingInput2 =
      (fun p => |(valForward ι T R K ops inp sflW dclW).predicted2 p|) ∧
    (trainForward ι T R K ops inp sflW dclW).scalingInput1 =
      (trainForward ι T R K ops inp sflW dclW).predicted1 ∧
    (trainForward ι T R K ops inp sflW dclW).scalingInput2 =
      (trainForward ι T R K ops inp sflW dclW).predicted2 ∧
    (valForward ι T R K ops inp sflW dclW).predicted1 =
      (trainForward ι T R K ops inp sflW dclW).predicted1 ∧
    (valForward ι T R K ops inp sflW dclW).scaled1 =
      (ops.depthScaling (fun p => |(trainForward ι T R K ops inp sflW dclW).predicted1 p|)
        inp.sparseDepths1 inp.sparseDepthMasks1).1 :=
  ⟨rfl, rfl, rfl, rfl, rfl, rfl⟩

/-- C7: checkpoints retain the step count and epoch number and restore
deterministically: the end-of-epoch save persists `epoch + 1` and the current
`step`; loading a trained model restores `step`, `epoch` and the model
weights; a saved checkpoint round-trips; the scheduler's first invocation
after restore is stepped with the restored counter; and the epoch loop
`range(epoch, n_epochs + 1)` continues from the restored epoch. -/
theorem checkpoint_resume (M O : Type) (model initModel : M) (optimizer : O)
    (epoch step nEpochs flag : ℕ) (vloss : ℚ) (c : Checkpoint M O) (l : FloatV)
    (hle : c.epoch ≤ nEpochs) :
    (endOfEpochSave M O model optimizer epoch step vloss).epoch = epoch + 1 ∧
    (endOfEpochSave M O model optimizer epoch step vloss).step = step ∧
    loadTrainedModelBranch M O true (some c) initModel =
      .ok { step := c.step, epoch := c.epoch, modelState := c.model } ∧
    loadTrainedModelBranch M O true
        (some (endOfEpochSave M O model optimizer epoch step vloss)) initModel =
      .ok { step := step, epoch := epoch + 1, modelState := model } ∧
    (trainBatchBody { step := c.step, flag := flag } l).trace.head? =
      some (.schedBatchStep c.step) ∧
    (epochSchedule c.epoch nEpochs).head? = some c.epoch := by
  refine ⟨rfl, rfl, rfl, rfl, ?_, ?_⟩
  · cases hnf : nonFiniteLoss l <;> simp [trainBatchBody, hnf]
  · have h1 : nEpochs + 1 - c.epoch = (nEpochs - c.epoch) + 1 := by omega
    rw [epochSchedule, h1]
    rfl

/-- C7 witness: a checkpoint saved at the end of epoch 3 with step 41 restores
step 41 and epoch 4, and the epoch loop then starts at epoch 4. -/
theorem checkpoint_resume_witness :
    loadTrainedModelBranch ℕ ℕ true (some (endOfEpochSave ℕ ℕ 7 8 3 41 0)) 9 =
      .ok { step := 41, epoch := 4, modelState := 7 } ∧
    (epochSchedule 4 10).head? = some 4 := by
  have h := checkpoint_resume ℕ ℕ 7 9 8 3 41 10 0 0
    { model := 7, optimizer := 8, epoch := 4, step := 41, validationLoss := 0 } .nan
    (by decide)
  exact ⟨h.2.2.2.1, h.2.2.2.2.2⟩

/-- C8: a missing checkpoint file is fatal where one is required — training
with --load_trained_model raises OSError on a nonexistent path, evaluation
always raises OSError on a nonexistent path — while the batch body of the
training loop ends every iteration normally (with continue or by completing),
whatever the loss value, NaN and Inf included. -/
theorem missing_checkpoint_fatal (M O : Type) (initModel : M) :
    loadTrainedModelBranch M O true none initModel = .error .osError ∧
    evaluateLoadModel M O none = .error .osError ∧
    (∀ s : TrainState, ∀ l : FloatV,
      (trainBatchBody s l).outcome = .continued ∨
        (trainBatchBody s l).outcome = .completed) := by
  refine ⟨rfl, rfl, fun s l => ?_⟩
  cases hnf : nonFiniteLoss l
  · right
    simp [trainBatchBody, hnf]
  · left
    simp [trainBatchBody, hnf]

/-- C9: on the non-finite-loss path the executed sequence is exactly
scheduler step, zero_grad, backward, zero_grad, optimizer step, ending in
continue: optimizer.step() IS invoked (with just-zeroed gradients and without
gradient clipping); an Adam moment update with zero gradient multiplies the
moments by β₁ and β₂, which changes the optimizer state whenever the first
moment is nonzero, so the error path is not a pure no-op on optimizer/model
state. -/
theorem nonfinite_path_still_steps (s : TrainState) (l : FloatV) (m v : ℚ)
    (hl : nonFiniteLoss l = true) :
    (trainBatchBody s l).trace =
      [.schedBatchStep s.step, .zeroGrad, .backward, .zeroGrad, .optStep] ∧
    OptAction.optStep ∈ (trainBatchBody s l).trace ∧
    (trainBatchBody s l).outcome = .continued ∧
    adamMoments m v 0 = (adamBeta1 * m, adamBeta2 * v) ∧
    (m ≠ 0 → (adamMoments m v 0).1 ≠ m) := by
  refine ⟨by simp [trainBatchBody, hl], by simp [trainBatchBody, hl],
    by simp [trainBatchBody, hl], by simp [adamMoments], ?_⟩
  intro hm heq
  apply hm
  simp only [adamMoments, adamBeta1, mul_zero, add_zero] at heq
  linarith

/-- C9 witness: with an Inf loss the optimizer step appears in the trace, and
an Adam zero-gradient moment update moves a unit first moment. -/
theorem nonfinite_path_still_steps_witness :
    OptAction.optStep ∈ (trainBatchBody { step := 0, flag := 0 } .inf).trace ∧
    (adamMoments 1 0 0).1 ≠ 1 := by
  have h := nonfinite_path_still_steps { step := 0, flag := 0 } .inf 1 0 (by decide)
  exact ⟨h.2.1, h.2.2.2.2 (by norm_num)⟩

/-- C10: for every finite-loss batch the executed sequence is scheduler step,
zero_grad, backward, clip_grad_norm_ with max norm 10.0, optimizer step: the
clipping immediately precedes the optimizer step, every optimizer step in the
trace has the clipping strictly before it, and the step counter advances. -/
theorem finite_loss_clip_before_step (s : TrainState) (l : FloatV)
    (h : nonFiniteLoss l = false) :
    (trainBatchBody s l).trace =
      [.schedBatchStep s.step, .zeroGrad, .backward, .clipGradNorm 10, .optStep] ∧
    (∀ n : ℕ, (trainBatchBody s l).trace.get? n = some .optStep →
      ∃ j : ℕ, j < n ∧ (trainBatchBody s l).trace.get? j = some (.clipGradNorm 10)) ∧
    (trainBatchBody s l).state.step = s.step + 1 := by
  have htrace : (trainBatchBody s l).trace =
      [.schedBatchStep s.step, .zeroGrad, .backward, .clipGradNorm 10, .optStep] := by
    simp [trainBatchBody, h]
  refine ⟨htrace, ?_, by simp [trainBatchBody, h]⟩
  intro n hn
  rw [htrace] at hn
  match n with
  | 0 => simp at hn
  | 1 => simp at hn
  | 2 => simp at hn
  | 3 => simp at hn
  | 4 =>
    refine ⟨3, by omega, ?_⟩
    rw [htrace]
    simp
  | (k + 5) => simp at hn

/-- C10 witness: the clipped sequence and the counter increment on a concrete
finite-loss batch. -/
theorem finite_loss_clip_before_step_witness :
    (trainBatchBody { step := 1, flag := 0 } (.fin 0)).trace =
      [.schedBatchStep 1, .zeroGrad, .backward, .clipGradNorm 10, .optStep] ∧
    (trainBatchBody { step := 1, flag := 0 } (.fin 0)).state.step = 1 + 1 := by
  have h := finite_loss_clip_before_step { step := 1, flag := 0 } (.fin 0) (by decide)
  exact ⟨h.1, h.2.2⟩

end DepthEstimation
